import Mathlib

/-!
Verification of the aspect-calculation and pattern-detection module
(`aspects.py`) of the natal-chart-calculator repository.

The Python module is shallowly embedded below.  Conventions of the embedding:

* Python numbers (ints and floats) are idealized as rationals `ℚ`.
* A Python body dict is a `Body` record with optional fields: `lon` models the
  `"ecliptic_longitude_deg"` entry (`none` = key absent, `some .nonNum` = key
  present but bound to a non-numeric value), `sign` models the `"sign"` entry.
* Python dicts that are iterated are modelled as association lists, preserving
  CPython's insertion-iteration order; lookups take the first matching key.
* A Python function that can raise is modelled as returning `Except String`;
  a `try/except ...: continue` around a block producing one optional element
  is modelled with `Option`.
* `round(x, 3)` is modelled exactly on `ℚ` with round-half-to-even
  (`roundHalfEven`), the rounding rule used by Python's `round`.
-/

namespace Natal

/-- Decidable equality for `Except`, used to evaluate concrete runs of the
embedded functions. -/
instance {ε α : Type} [DecidableEq ε] [DecidableEq α] :
    DecidableEq (Except ε α) := fun x y =>
  match x, y with
  | .ok a, .ok b =>
      if h : a = b then .isTrue (h ▸ rfl)
      else .isFalse fun c => h (Except.ok.inj c)
  | .error a, .error b =>
      if h : a = b then .isTrue (h ▸ rfl)
      else .isFalse fun c => h (Except.error.inj c)
  | .ok _, .error _ => .isFalse fun c => Except.noConfusion c
  | .error _, .ok _ => .isFalse fun c => Except.noConfusion c

/-- Value found under a body's `"ecliptic_longitude_deg"` key: a number, or a
value of some non-numeric Python type (which `isinstance(·, (int, float))`
rejects). -/
inductive LonVal where
  | num (q : ℚ)
  | nonNum
deriving DecidableEq

/-- A celestial-body dict as read by `aspects.py`: the two keys the module
accesses.  `none` models an absent key. -/
structure Body where
  lon : Option LonVal := none
  sign : Option String := none
deriving DecidableEq

/-- The `bodies` mapping: an association list modelling a Python dict in
insertion order. -/
abbrev Bodies := List (String × Body)

/-- One element of the list returned by `compute_aspects`
(`aspects.py` lines 111-117). -/
structure Aspect where
  between : List String
  aspect : String
  angle : ℚ
  orb : ℚ
  strength : ℚ
deriving DecidableEq

/-- Python's `%` for a nonnegative-or-any rational dividend and positive
divisor: `q - m * floor (q / m)` (Python `%` takes the divisor's sign). -/
def pymod (q m : ℚ) : ℚ := q - m * (⌊q / m⌋ : ℤ)

/-- Round-half-to-even to an integer, the tie-breaking rule of Python's
`round`. -/
def roundHalfEven (q : ℚ) : ℤ :=
  if q - ⌊q⌋ < 1/2 then ⌊q⌋
  else if q - ⌊q⌋ > 1/2 then ⌊q⌋ + 1
  else if ⌊q⌋ % 2 = 0 then ⌊q⌋ else ⌊q⌋ + 1

/-- Python's `round(x, 3)` on the `ℚ` idealization. -/
def pyround3 (q : ℚ) : ℚ := (roundHalfEven (q * 1000) : ℚ) / 1000

/-- The `ASPECTS` table (`aspects.py` lines 16-25), in source order; iteration
of a Python dict literal follows insertion order. -/
def ASPECTS : List (String × ℚ) :=
  [("conjunction", 0), ("semi-sextile", 30), ("semi-square", 45),
   ("sextile", 60), ("square", 90), ("trine", 120), ("quincunx", 150),
   ("opposition", 180)]

/-- The `ASPECT_ORBS` table (`aspects.py` lines 27-36). -/
def ASPECT_ORBS : List (String × ℚ) :=
  [("conjunction", 8), ("semi-sextile", 2), ("semi-square", 2),
   ("sextile", 6), ("square", 7), ("trine", 8), ("quincunx", 2),
   ("opposition", 8)]

/-- Python `d.get(k, default)` on a numeric-valued dict. -/
def lookupD (l : List (String × ℚ)) (k : String) (d : ℚ) : ℚ :=
  (l.lookup k).getD d

/-- Embedding of `angle_difference` (`aspects.py` lines 38-51) on numeric arguments:
`diff = abs(a - b) % 360`, folded into `[0, 180]`.  The non-numeric
`ValueError` branch is modelled at the call sites via `LonVal`. -/
def angle_difference (a b : ℚ) : ℚ :=
  let diff := pymod |a - b| 360
  if diff > 180 then 360 - diff else diff

/-- The `aspect_weights` table of `calculate_aspect_strength`
(`aspects.py` lines 162-171). -/
def aspect_weights : List (String × ℚ) :=
  [("conjunction", 1), ("opposition", 9/10), ("trine", 4/5), ("square", 4/5),
   ("sextile", 3/5), ("quincunx", 2/5), ("semi-square", 3/10),
   ("semi-sextile", 1/5)]

/-- Embedding of `calculate_aspect_strength` (`aspects.py` lines 133-183).  Both orb
arguments are numeric and the aspect type is a string at every call site, so
only the `max_orb <= 0` `ValueError` remains reachable. -/
def calculate_aspect_strength (actual_orb max_orb : ℚ) (aspect_type : String) :
    Except String ℚ :=
  if max_orb ≤ 0 then .error "Max orb must be positive"
  else
    let actual := |actual_orb|
    let orb_strength := 1 - actual / max_orb
    let aspect_weight := lookupD aspect_weights aspect_type (1/2)
    let strength := orb_strength * aspect_weight
    let clamped := if strength < 0 then (0 : ℚ)
      else if strength > 1 then 1 else strength
    .ok (pyround3 clamped)

/-- The inner `for asp, angle in ASPECTS.items()` loop of `compute_aspects`
(`aspects.py` lines 106-121): the first kind whose orb tolerance is met is
scored; if scoring raises, the loop logs and `continue`s to the NEXT kind;
a successful score `break`s with the record. -/
def aspect_kind_scan (aspect_orbs : List (String × ℚ)) (n1 n2 : String)
    (diff : ℚ) : List (String × ℚ) → Option Aspect
  | [] => none
  | (asp, angle) :: rest =>
    let orb := lookupD aspect_orbs asp 5
    if |diff - angle| ≤ orb then
      match calculate_aspect_strength |diff - angle| orb asp with
      | .ok strength => some ⟨[n1, n2], asp, diff, |diff - angle|, strength⟩
      | .error _ => aspect_kind_scan aspect_orbs n1 n2 diff rest
    else aspect_kind_scan aspect_orbs n1 n2 diff rest

/-- The body of the per-pair `try` of `compute_aspects` (lines 94-121) once
both longitudes have been fetched: non-numeric longitudes skip the pair. -/
def classify_pair (aspect_orbs : List (String × ℚ)) (n1 n2 : String)
    (v1 v2 : LonVal) : Option Aspect :=
  match v1, v2 with
  | .num lon1, .num lon2 =>
      aspect_kind_scan aspect_orbs n1 n2 (angle_difference lon1 lon2) ASPECTS
  | _, _ => none

/-- All index pairs `i < j` of a list, in the order of the nested loops at
`aspects.py` lines 92-93. -/
def ordered_pairs : List α → List (α × α)
  | [] => []
  | x :: xs => (xs.map fun y => (x, y)) ++ ordered_pairs xs

/-- Longitude value of a named body (`bodies[name]["ecliptic_longitude_deg"]`
as an optional read). -/
def lonOf (bodies : Bodies) (n : String) : Option LonVal :=
  (bodies.lookup n).bind Body.lon

/-- The candidate-name list of `compute_aspects` after the `include_points`
filter (lines 82-86).  Python's `if include_points:` is falsy on `[]`, so an
empty list disables filtering. -/
def candidate_names (bodies : Bodies) (include_points : Option (List String)) :
    List String :=
  let names := bodies.map Prod.fst
  match include_points with
  | some ips => if ips.isEmpty then names else names.filter fun n => ips.contains n
  | none => names

/-- Embedding of `compute_aspects` (`aspects.py` lines 53-131) on a dict argument. -/
def compute_aspects (bodies : Bodies) (aspect_orbs : Option (List (String × ℚ)))
    (include_points : Option (List String)) : Except String (List Aspect) :=
  if bodies.isEmpty then .error "Bodies must be a non-empty dictionary"
  else
    let orbs := aspect_orbs.getD ASPECT_ORBS
    let names := bodies.map Prod.fst
    if names.any fun n => (lonOf bodies n).isNone then
      .error "missing ecliptic_longitude_deg data"
    else
      let cands := candidate_names bodies include_points
      if cands.length < 2 then .ok []
      else
        .ok ((ordered_pairs cands).filterMap fun p =>
          match lonOf bodies p.1, lonOf bodies p.2 with
          | some v1, some v2 => classify_pair orbs p.1 p.2 v1 v2
          | _, _ => none)

/-- Wrapper over `compute_aspects` including the dynamic type of its first argument:
`none` models a non-dict `bodies` value, rejected by the
`isinstance(bodies, dict)` check on line 66. -/
def compute_aspects_arg (bodies : Option Bodies)
    (aspect_orbs : Option (List (String × ℚ)))
    (include_points : Option (List String)) : Except String (List Aspect) :=
  match bodies with
  | none => .error "Bodies must be a non-empty dictionary"
  | some bs => compute_aspects bs aspect_orbs include_points

/-- One adjacency entry `{"to": ..., "aspect": ...} (the `to` key is called `dest` here, `to` being a Lean keyword)` of the aspect graph. -/
structure Conn where
  dest : String
  aspect : String
deriving DecidableEq

/-- The aspect graph: a dict from body name to its adjacency list, modelled in
insertion order. -/
abbrev Graph := List (String × List Conn)

/-- Python `graph.get(body, [])`. -/
def graphGet (g : Graph) (b : String) : List Conn := (g.lookup b).getD []

/-- Model of `if b not in graph: graph[b] = []` followed by `graph[b].append c`:
append to an existing entry, else create the key at the end. -/
def addConn : Graph → String → Conn → Graph
  | [], b, c => [(b, [c])]
  | (k, cs) :: rest, b, c =>
    if k = b then (k, cs ++ [c]) :: rest else (k, cs) :: addConn rest b c

/-- The aspect kinds admitted into the pattern graph
(`aspects.py` line 264); `"sextile"` and the minor kinds are excluded. -/
def graph_kinds : List String :=
  ["square", "trine", "opposition", "quincunx", "conjunction"]

/-- Embedding of `build_aspect_graph` (`aspects.py` lines 252-285).  A record whose
`between` list does not have exactly two entries raises at unpacking and is
skipped by the inner `except`. -/
def build_aspect_graph (aspects : List Aspect) : Graph :=
  aspects.foldl
    (fun g a =>
      if graph_kinds.contains a.aspect then
        match a.between with
        | [b1, b2] => addConn (addConn g b1 ⟨b2, a.aspect⟩) b2 ⟨b1, a.aspect⟩
        | _ => g
      else g)
    []

/-- Embedding of `has_aspect_between` (`aspects.py` lines 470-475). -/
def has_aspect_between (g : Graph) (b1 b2 : String) (t : String) : Bool :=
  (graphGet g b1).any fun c => c.dest == b2 && c.aspect == t

/-- The `valid_bodies` whitelist of `detect_t_squares`
(`aspects.py` lines 293-294). -/
def valid_bodies : List String :=
  ["sun", "moon", "mercury", "venus", "mars", "jupiter", "saturn",
   "uranus", "neptune", "pluto", "north_node", "south_node"]

/-- The graph-filtering stage of `detect_t_squares` (lines 297-302). -/
def filtered_t_graph (g : Graph) : Graph :=
  g.filterMap fun e =>
    if valid_bodies.contains e.1 then
      let f := e.2.filter fun c => valid_bodies.contains c.dest
      if f.isEmpty then none else some (e.1, f)
    else none

/-- The opposition-collection stage of `detect_t_squares` (lines 305-309);
each opposition edge appears once per direction. -/
def oppositions_of (g : Graph) : List (String × String) :=
  g.flatMap fun e =>
    (e.2.filter fun c => c.aspect == "opposition").map fun c => (e.1, c.dest)

/-- Code-point comparison of char lists, Python's `<` on strings. -/
def charListLt : List Char → List Char → Bool
  | [], [] => false
  | [], _ :: _ => true
  | _ :: _, [] => false
  | c :: cs, d :: ds =>
    if c.val < d.val then true
    else if d.val < c.val then false
    else charListLt cs ds

/-- Python string `<`. -/
def strLt (s t : String) : Bool := charListLt s.data t.data

/-- Ascending insertion, used to model Python's `sorted` on small string
lists. -/
def insertStr (x : String) : List String → List String
  | [] => [x]
  | y :: ys => if strLt x y then x :: y :: ys else y :: insertStr x ys

/-- Python `sorted([a, b, c])` on strings. -/
def sorted3 (a b c : String) : List String :=
  insertStr a (insertStr b (insertStr c []))

/-- A T-square record (`aspects.py` lines 325-330). -/
structure TSquare where
  type : String
  focal_planet : String
  opposition : List String
  strength : ℚ
deriving DecidableEq

/-- Embedding of `calculate_pattern_strength` (`aspects.py` lines 504-511). -/
def calculate_pattern_strength (focal_planet : String)
    (base_planets : List String) (_bodies : Bodies) : ℚ :=
  let personal := ["sun", "moon", "mercury", "venus", "mars"]
  let all_planets := focal_planet :: base_planets
  let personal_count := (all_planets.filter fun p => personal.contains p).length
  pyround3 (1/2 + personal_count * (1/10))

/-- The seen-set fold of `detect_t_squares` (lines 312-330): for each
opposition, every planet squaring both ends yields one T-square unless its
sorted triple was already reported.  CPython iterates the set intersection
`set(s1) & set(s2)` in an unspecified order; it is modelled here as the
first list filtered by membership in the second, deduplicated. -/
def t_square_fold (fg : Graph) (bodies : Bodies) :
    List (String × String) → List (List String) → List TSquare
  | [], _ => []
  | (b1, b2) :: rest, seen =>
    let squares1 := ((graphGet fg b1).filter fun c => c.aspect == "square").map Conn.dest
    let squares2 := ((graphGet fg b2).filter fun c => c.aspect == "square").map Conn.dest
    let common := (squares1.filter fun p => squares2.contains p).dedup
    let step := common.foldl
      (fun (acc : List TSquare × List (List String)) focal =>
        let config := sorted3 focal b1 b2
        if acc.2.contains config then acc
        else (acc.1 ++ [⟨"T-square", focal, [b1, b2],
                calculate_pattern_strength focal [b1, b2] bodies⟩],
              acc.2 ++ [config]))
      ([], seen)
    step.1 ++ t_square_fold fg bodies rest step.2

/-- Embedding of `detect_t_squares` (`aspects.py` lines 287-332). -/
def detect_t_squares (g : Graph) (bodies : Bodies) : List TSquare :=
  t_square_fold (filtered_t_graph g) bodies (oppositions_of (filtered_t_graph g)) []

/-- All index triples `i < j < k` of a list, in the order of the nested loops
at `aspects.py` lines 341-343. -/
def ordered_triples : List α → List (α × α × α)
  | [] => []
  | x :: xs => ((ordered_pairs xs).map fun p => (x, p.1, p.2)) ++ ordered_triples xs

/-- All index quadruples `i < j < k < l` of a list (lines 389-392). -/
def ordered_quadruples : List α → List (α × α × α × α)
  | [] => []
  | x :: xs =>
    ((ordered_triples xs).map fun t => (x, t.1, t.2.1, t.2.2)) ++ ordered_quadruples xs

/-- Embedding of `get_trine_element` (`aspects.py` lines 477-485). -/
def get_trine_element (longitude : ℚ) : String :=
  let deg := pymod longitude 360
  if 0 ≤ deg ∧ deg < 120 then "Fire"
  else if 120 ≤ deg ∧ deg < 240 then "Earth"
  else "Air/Water"

/-- Embedding of `calculate_grand_trine_strength` (`aspects.py` lines 513-517). -/
def calculate_grand_trine_strength (planets : List String) (_bodies : Bodies) : ℚ :=
  let personal := ["sun", "moon", "mercury", "venus", "mars"]
  let personal_count := (planets.filter fun p => personal.contains p).length
  pyround3 (3/5 + personal_count * (2/25))

/-- Embedding of `calculate_cross_strength` (`aspects.py` lines 519-523). -/
def calculate_cross_strength (planets : List String) (_bodies : Bodies) : ℚ :=
  let personal := ["sun", "moon", "mercury", "venus", "mars"]
  let personal_count := (planets.filter fun p => personal.contains p).length
  pyround3 (7/10 + personal_count * (3/40))

/-- Embedding of `calculate_yod_strength` (`aspects.py` lines 525-531). -/
def calculate_yod_strength (focal_planet : String) (base_planets : List String)
    (_bodies : Bodies) : ℚ :=
  let personal := ["sun", "moon", "mercury", "venus", "mars"]
  let all_planets := focal_planet :: base_planets
  let personal_count := (all_planets.filter fun p => personal.contains p).length
  pyround3 (2/5 + personal_count * (3/25))

/-- A Grand Trine record (`aspects.py` lines 353-358). -/
structure GrandTrine where
  type : String
  planets : List String
  element : String
  strength : ℚ
deriving DecidableEq

/-- The triple loop of `detect_grand_trines` (lines 341-358).  When a triple
qualifies, `bodies[p1]["ecliptic_longitude_deg"]` is read for the element
tag: a missing key raises `KeyError`, a non-numeric value makes
`get_trine_element`'s `%` raise; either exception aborts the whole detector,
discarding Grand Trines found earlier. -/
def grand_trine_loop (g : Graph) (bodies : Bodies) :
    List (String × String × String) → Except String (List GrandTrine)
  | [] => .ok []
  | (p1, p2, p3) :: rest =>
    let trine_count := ([(p1, p2), (p1, p3), (p2, p3)].filter fun pq =>
      has_aspect_between g pq.1 pq.2 "trine").length
    if trine_count = 3 then
      match lonOf bodies p1 with
      | some (.num q) => do
          let tl ← grand_trine_loop g bodies rest
          .ok (⟨"Grand Trine", [p1, p2, p3], get_trine_element q,
                calculate_grand_trine_strength [p1, p2, p3] bodies⟩ :: tl)
      | some .nonNum => .error "TypeError: non-numeric longitude"
      | none => .error "KeyError: ecliptic_longitude_deg"
    else grand_trine_loop g bodies rest

/-- Embedding of `detect_grand_trines` (`aspects.py` lines 334-360). -/
def detect_grand_trines (g : Graph) (bodies : Bodies) :
    Except String (List GrandTrine) :=
  grand_trine_loop g bodies (ordered_triples (bodies.map Prod.fst))

/-- The square/opposition tally of `is_grand_cross` (lines 369-378): each
unordered pair is classified as square first, and only `elif` as
opposition. -/
def grand_cross_counts (g : Graph) (l : List (String × String)) : ℕ × ℕ :=
  l.foldl
    (fun acc pq =>
      if has_aspect_between g pq.1 pq.2 "square" then (acc.1 + 1, acc.2)
      else if has_aspect_between g pq.1 pq.2 "opposition" then (acc.1, acc.2 + 1)
      else acc)
    (0, 0)

/-- Embedding of `is_grand_cross` (`aspects.py` lines 362-381). -/
def is_grand_cross (g : Graph) (planets : List String) : Bool :=
  if planets.length ≠ 4 then false
  else
    let c := grand_cross_counts g (ordered_pairs planets)
    c.1 == 4 && c.2 == 2

/-- Embedding of `get_cross_cardinality` (`aspects.py` lines 487-502).  Reading a missing
longitude key raises `KeyError`; flooring a non-numeric one raises
`TypeError`.  `max(mod_counts, key=...)` returns the first maximal key in the
dict's insertion order cardinal, fixed, mutable. -/
def get_cross_cardinality (planets : List String) (bodies : Bodies) :
    Except String String := do
  let longitudes ← planets.mapM fun p =>
    match lonOf bodies p with
    | some (.num q) => Except.ok q
    | some .nonNum => Except.error "TypeError: non-numeric longitude"
    | none => Except.error "KeyError: ecliptic_longitude_deg"
  let sign_nums := longitudes.map fun lon => ((⌊lon / 30⌋ : ℤ)) % 12
  let cardinal := (sign_nums.filter fun s => [0, 3, 6, 9].contains s).length
  let fixed := (sign_nums.filter fun s => [1, 4, 7, 10].contains s).length
  let mutableCount := (sign_nums.filter fun s =>
    !([0, 3, 6, 9].contains s) && !([1, 4, 7, 10].contains s)).length
  .ok (if cardinal ≥ fixed ∧ cardinal ≥ mutableCount then "cardinal"
    else if fixed ≥ mutableCount then "fixed" else "mutable")

/-- A Grand Cross record (`aspects.py` lines 397-402). -/
structure GrandCross where
  type : String
  planets : List String
  cardinality : String
  strength : ℚ
deriving DecidableEq

/-- The quadruple loop of `detect_grand_crosses` (lines 389-402). -/
def grand_cross_loop (g : Graph) (bodies : Bodies) :
    List (String × String × String × String) → Except String (List GrandCross)
  | [] => .ok []
  | (a, b, c, d) :: rest =>
    let ps := [a, b, c, d]
    if is_grand_cross g ps then do
      let card ← get_cross_cardinality ps bodies
      let tl ← grand_cross_loop g bodies rest
      .ok (⟨"Grand Cross", ps, card, calculate_cross_strength ps bodies⟩ :: tl)
    else grand_cross_loop g bodies rest

/-- Embedding of `detect_grand_crosses` (`aspects.py` lines 383-404). -/
def detect_grand_crosses (g : Graph) (bodies : Bodies) :
    Except String (List GrandCross) :=
  grand_cross_loop g bodies (ordered_quadruples (bodies.map Prod.fst))

/-- A Yod record (`aspects.py` lines 421-426). -/
structure Yod where
  type : String
  focal_planet : String
  base_planets : List String
  strength : ℚ
deriving DecidableEq

/-- Embedding of `detect_yods` (`aspects.py` lines 406-428): for each focal body, collect
the bodies quincunx to it in the PATTERN graph, then test each pair of them
for a sextile edge in that same graph. -/
def detect_yods (g : Graph) (bodies : Bodies) : List Yod :=
  (bodies.map Prod.fst).flatMap fun focal =>
    let quincunx_to :=
      ((graphGet g focal).filter fun c => c.aspect == "quincunx").map Conn.dest
    if quincunx_to.length ≥ 2 then
      (ordered_pairs quincunx_to).filterMap fun pq =>
        if has_aspect_between g pq.1 pq.2 "sextile" then
          some ⟨"Yod", focal, [pq.1, pq.2],
            calculate_yod_strength focal [pq.1, pq.2] bodies⟩
        else none
    else []

/-- True on the non-numeric longitude marker. -/
def LonVal.isNonNum : LonVal → Bool
  | .num _ => false
  | .nonNum => true

/-- Stable ascending insertion by longitude; folding it from the left models
Python's stable `list.sort(key=lambda x: x[1])`. -/
def insertByLon (x : String × ℚ) : List (String × ℚ) → List (String × ℚ)
  | [] => [x]
  | y :: ys => if y.2 ≤ x.2 then y :: insertByLon x ys else x :: y :: ys

/-- Python's stable sort by the longitude component. -/
def sortByLon (l : List (String × ℚ)) : List (String × ℚ) :=
  l.foldl (fun acc x => insertByLon x acc) []

/-- The inner `j` sweep of `detect_stelliums` (lines 447-454): skip processed
planets, absorb while the gap to the cluster's FIRST member stays within the
orb, and `break` at the first excessive gap. -/
def absorb (first : ℚ) (orb : ℚ) (processed : List String) :
    List (String × ℚ) → List (String × ℚ)
  | [] => []
  | p :: tl =>
    if processed.contains p.1 then absorb first orb processed tl
    else if angle_difference first p.2 ≤ orb then p :: absorb first orb processed tl
    else []

/-- A Stellium record (`aspects.py` lines 461-466). -/
structure Stellium where
  type : String
  planets : List String
  sign : String
  orb_range : ℚ
deriving DecidableEq

/-- The outer `i` loop of `detect_stelliums` (lines 442-466).  A qualifying
cluster reads `bodies[cluster[0][0]]["sign"]`; a missing `sign` key raises,
aborting the detector and discarding stelliums found earlier. -/
def stellium_loop (bodies : Bodies) (orb : ℚ) :
    List (String × ℚ) → List String → Except String (List Stellium)
  | [], _ => .ok []
  | p :: rest, processed =>
    if processed.contains p.1 then stellium_loop bodies orb rest processed
    else
      let cluster := p :: absorb p.2 orb processed rest
      if cluster.length ≥ 3 then
        match (bodies.lookup p.1).bind Body.sign with
        | some s => do
            let tl ← stellium_loop bodies orb rest (processed ++ cluster.map Prod.fst)
            .ok (⟨"Stellium", cluster.map Prod.fst, s,
                  angle_difference p.2 (cluster.getLast?.getD p).2⟩ :: tl)
        | none => .error "KeyError: sign"
      else stellium_loop bodies orb rest processed

/-- Embedding of `detect_stelliums` (`aspects.py` lines 430-468).  The position list read
raises `KeyError` on a missing longitude; Python's `sort` raises `TypeError`
as soon as a non-numeric longitude is compared with another value, which
happens whenever at least two positions exist. -/
def detect_stelliums (bodies : Bodies) (orb : ℚ) : Except String (List Stellium) := do
  let names := bodies.map Prod.fst
  let positions ← names.mapM fun n =>
    match lonOf bodies n with
    | some v => Except.ok (n, v)
    | none => Except.error "KeyError: ecliptic_longitude_deg"
  if 2 ≤ positions.length ∧ positions.any fun p => p.2.isNonNum then
    .error "TypeError: non-numeric longitude"
  else
    let nums := positions.filterMap fun p =>
      match p.2 with
      | .num q => some (p.1, q)
      | .nonNum => none
    stellium_loop bodies orb (sortByLon nums) []

/-- The five-key result dict of `detect_aspect_patterns`
(`aspects.py` lines 203-209). -/
structure Patterns where
  t_squares : List TSquare
  grand_trines : List GrandTrine
  grand_crosses : List GrandCross
  yods : List Yod
  stelliums : List Stellium
deriving DecidableEq

/-- The all-empty pattern dict (lines 203-209 and 250). -/
def emptyPatterns : Patterns := ⟨[], [], [], [], []⟩

/-- The per-detector `try/except` of `detect_aspect_patterns`: a raising
detector leaves its pattern list empty. -/
def exceptD : Except String (List α) → List α
  | .ok l => l
  | .error _ => []

/-- Embedding of `detect_aspect_patterns` (`aspects.py` lines 185-250).  The initial
`ValueError`s for empty `aspects` or `bodies` are caught by the outer
`except`, which returns the all-empty dict.  `detect_t_squares` and
`detect_yods` cannot raise in this model (they only read the graph with
defaulting `get`s), so their `try` wrappers are the identity. -/
def detect_aspect_patterns (aspects : List Aspect) (bodies : Bodies) : Patterns :=
  if aspects.isEmpty ∨ bodies.isEmpty then emptyPatterns
  else
    let g := build_aspect_graph aspects
    ⟨detect_t_squares g bodies,
     exceptD (detect_grand_trines g bodies),
     exceptD (detect_grand_crosses g bodies),
     detect_yods g bodies,
     exceptD (detect_stelliums bodies 8)⟩

/-! Spec-side definitions, for refinement comparisons.  These two follow the
words of the specification rather than the source. -/

/-- Modelled from the spec: the first aspect kind, in the fixed enumeration
order of `ASPECTS`, whose orb tolerance is satisfied by the angular
separation `diff`. -/
def spec_first_matching_kind (orbs : List (String × ℚ)) (diff : ℚ) :
    Option (String × ℚ) :=
  ASPECTS.find? fun ka => decide (|diff - ka.2| ≤ lookupD orbs ka.1 5)

/-- Test for a non-raising `Except` result. -/
def exceptOk : Except ε α → Bool
  | .ok _ => true
  | .error _ => false

/-- Modelled from the amended spec reading: the first aspect kind, in the
fixed enumeration order of `ASPECTS`, whose orb tolerance is satisfied by
the separation `diff` AND whose strength scoring does not raise. -/
def spec_first_scoreable_kind (orbs : List (String × ℚ)) (diff : ℚ) :
    Option (String × ℚ) :=
  ASPECTS.find? fun ka =>
    decide (|diff - ka.2| ≤ lookupD orbs ka.1 5) &&
    exceptOk (calculate_aspect_strength |diff - ka.2| (lookupD orbs ka.1 5) ka.1)

/-- Whether the original aspect list records a sextile between two bodies
(in either orientation). -/
def spec_sextile_in_aspects (aspects : List Aspect) (p1 p2 : String) : Bool :=
  aspects.any fun a =>
    a.aspect == "sextile" && (a.between == [p1, p2] || a.between == [p2, p1])

/-- Modelled from the spec: Yod detection whose base-pair sextile test is
resolved by querying the original aspect list directly, the quincunx arms
still coming from the pattern graph. -/
def spec_detect_yods (aspects : List Aspect) (g : Graph) (bodies : Bodies) :
    List Yod :=
  (bodies.map Prod.fst).flatMap fun focal =>
    let quincunx_to :=
      ((graphGet g focal).filter fun c => c.aspect == "quincunx").map Conn.dest
    if quincunx_to.length ≥ 2 then
      (ordered_pairs quincunx_to).filterMap fun pq =>
        if spec_sextile_in_aspects aspects pq.1 pq.2 then
          some ⟨"Yod", focal, [pq.1, pq.2],
            calculate_yod_strength focal [pq.1, pq.2] bodies⟩
        else none
    else []

/-! Concrete charts used by the individual claims. -/

/-- Yod chart: `sun` quincunx `moon` and `venus`, which are sextile. -/
def C1_bodies : Bodies :=
  [("sun", ⟨some (.num 0), none⟩), ("moon", ⟨some (.num 150), none⟩),
   ("venus", ⟨some (.num 210), none⟩)]

/-- The aspect list `compute_aspects` produces for `C1_bodies`. -/
def C1_aspects : List Aspect :=
  [⟨["sun", "moon"], "quincunx", 150, 0, 2/5⟩,
   ⟨["sun", "venus"], "quincunx", 150, 0, 2/5⟩,
   ⟨["moon", "venus"], "sextile", 60, 0, 3/5⟩]

/-- Bodies for the failure-isolation scenario: a stellium-forming trio whose
first member has no `"sign"` key. -/
def C2_bodies : Bodies :=
  [("sun", ⟨some (.num 10), none⟩), ("moon", ⟨some (.num 12), some "Aries"⟩),
   ("mercury", ⟨some (.num 14), some "Gemini"⟩)]

/-- A valid aspect list whose graph contains the T-square
`moon` square `sun` opposition `mars` square `moon`. -/
def C2_aspects : List Aspect :=
  [⟨["sun", "mars"], "opposition", 180, 0, 9/10⟩,
   ⟨["sun", "moon"], "square", 90, 0, 4/5⟩,
   ⟨["mars", "moon"], "square", 90, 0, 4/5⟩]

/-- Two coincident bodies. -/
def C3_bodies : Bodies :=
  [("a", ⟨some (.num 0), none⟩), ("b", ⟨some (.num 0), none⟩)]

/-- An orbs table whose first matching kind (conjunction, orb `0`) makes
strength scoring raise, while a later kind (semi-sextile, orb `40`) also has
its tolerance satisfied at separation `0`. -/
def C3_orbs : List (String × ℚ) := [("conjunction", 0), ("semi-sextile", 40)]

/-- Two coincident bodies (second copy, for the per-pair-failure claim). -/
def C4_bodies : Bodies :=
  [("c", ⟨some (.num 200), none⟩), ("d", ⟨some (.num 200), none⟩)]

/-- Same overlapping-orbs table as `C3_orbs`, owned by the per-pair-failure
claim. -/
def C4_orbs : List (String × ℚ) := [("conjunction", 0), ("semi-sextile", 40)]

/-- The Grand-Cross chart `sun 0°, moon 90°, mars 180°, venus 270°`. -/
def C5_bodies : Bodies :=
  [("sun", ⟨some (.num 0), none⟩), ("moon", ⟨some (.num 90), none⟩),
   ("mars", ⟨some (.num 180), none⟩), ("venus", ⟨some (.num 270), none⟩)]

/-- The aspect list `compute_aspects` produces for `C5_bodies`. -/
def C5_aspects : List Aspect :=
  [⟨["sun", "moon"], "square", 90, 0, 4/5⟩,
   ⟨["sun", "mars"], "opposition", 180, 0, 9/10⟩,
   ⟨["sun", "venus"], "square", 90, 0, 4/5⟩,
   ⟨["moon", "mars"], "square", 90, 0, 4/5⟩,
   ⟨["moon", "venus"], "opposition", 180, 0, 9/10⟩,
   ⟨["mars", "venus"], "square", 90, 0, 4/5⟩]

/-- The T-square chart `sun 0°, moon 90°, mars 180°`. -/
def C6_bodies : Bodies :=
  [("sun", ⟨some (.num 0), none⟩), ("moon", ⟨some (.num 90), none⟩),
   ("mars", ⟨some (.num 180), none⟩)]

/-- The aspect list `compute_aspects` produces for `C6_bodies`. -/
def C6_aspects : List Aspect :=
  [⟨["sun", "moon"], "square", 90, 0, 4/5⟩,
   ⟨["sun", "mars"], "opposition", 180, 0, 9/10⟩,
   ⟨["moon", "mars"], "square", 90, 0, 4/5⟩]

/-- A Grand-Trine chart whose insertion order (`zeta`, `alpha`, `beta`)
disagrees with the lexicographic order of the names. -/
def C7_bodies : Bodies :=
  [("zeta", ⟨some (.num 0), none⟩), ("alpha", ⟨some (.num 120), none⟩),
   ("beta", ⟨some (.num 240), none⟩)]

/-- The aspect list `compute_aspects` produces for `C7_bodies`. -/
def C7_aspects : List Aspect :=
  [⟨["zeta", "alpha"], "trine", 120, 0, 4/5⟩,
   ⟨["zeta", "beta"], "trine", 120, 0, 4/5⟩,
   ⟨["alpha", "beta"], "trine", 120, 0, 4/5⟩]

/-- Five bodies at `10°, 12°, 14°, 16°, 18°`. -/
def C8_bodies : Bodies :=
  [("sun", ⟨some (.num 10), some "Aries"⟩), ("moon", ⟨some (.num 12), some "Aries"⟩),
   ("mercury", ⟨some (.num 14), some "Aries"⟩), ("venus", ⟨some (.num 16), some "Aries"⟩),
   ("mars", ⟨some (.num 18), some "Aries"⟩)]

/-- Two bodies `15°` apart: no aspect kind's orb tolerance is met. -/
def C10_bodies : Bodies :=
  [("a", ⟨some (.num 0), none⟩), ("b", ⟨some (.num 15), none⟩)]

/-! Helper lemmas. -/

/-- Range of the Python `%`-by-360 on the rational idealization. -/
theorem pymod360_bounds (q : ℚ) : 0 ≤ pymod q 360 ∧ pymod q 360 < 360 := by
  have h1 := Int.floor_le (q / 360)
  have h2 := Int.lt_floor_add_one (q / 360)
  have e : q / 360 * 360 = q := div_mul_cancel₀ q (by norm_num)
  have g1 : (⌊q / 360⌋ : ℚ) * 360 ≤ q := by
    have := mul_le_mul_of_nonneg_right h1 (show (0:ℚ) ≤ 360 by norm_num)
    rwa [e] at this
  have g2 : q < ((⌊q / 360⌋ : ℚ) + 1) * 360 := by
    have := mul_lt_mul_of_pos_right h2 (show (0:ℚ) < 360 by norm_num)
    rwa [e] at this
  unfold pymod
  constructor <;> nlinarith

/-! Claim theorems. -/

/-- C9: `angle_difference` is symmetric, always lands in `[0, 180]`,
vanishes on the diagonal, sends `(0, 180)` to `180`, and equals
`d = |a - b| mod 360` folded to `360 - d` when `d` exceeds `180`. -/
theorem angle_difference_props (a b : ℚ) :
    angle_difference a b = angle_difference b a
  ∧ 0 ≤ angle_difference a b
  ∧ angle_difference a b ≤ 180
  ∧ angle_difference a a = 0
  ∧ angle_difference 0 180 = 180
  ∧ angle_difference a b =
      (if pymod |a - b| 360 > 180 then 360 - pymod |a - b| 360
       else pymod |a - b| 360) := by
  obtain ⟨h0, h360⟩ := pymod360_bounds |a - b|
  refine ⟨?_, ?_, ?_, ?_, ?_, rfl⟩
  · simp only [angle_difference]
    rw [abs_sub_comm]
  · simp only [angle_difference]
    split <;> linarith
  · simp only [angle_difference]
    split <;> linarith
  · simp [angle_difference, pymod]
  · norm_num [angle_difference, pymod]

/-- C1: on the chart `sun 0°, moon 150°, venus 210°`, the aspect list holds
both quincunxes and the base sextile, yet the pattern graph built from it has
no sextile edge, so `detect_yods` reports nothing; the spec-modelled Yod
detection that queries the aspect list reports the expected Yod. -/
theorem yods_lost_to_graph_sextile_exclusion :
    compute_aspects C1_bodies none none = .ok C1_aspects
  ∧ spec_sextile_in_aspects C1_aspects "moon" "venus" = true
  ∧ has_aspect_between (build_aspect_graph C1_aspects) "sun" "moon" "quincunx" = true
  ∧ has_aspect_between (build_aspect_graph C1_aspects) "sun" "venus" "quincunx" = true
  ∧ has_aspect_between (build_aspect_graph C1_aspects) "moon" "venus" "sextile" = false
  ∧ spec_detect_yods C1_aspects (build_aspect_graph C1_aspects) C1_bodies =
      [⟨"Yod", "sun", ["moon", "venus"], 19/25⟩]
  ∧ detect_yods (build_aspect_graph C1_aspects) C1_bodies = [] := by
  refine ⟨?_, ?_, ?_, ?_, ?_, ?_, ?_⟩ <;> with_unfolding_all decide

/-- C6: on the chart `sun 0°, moon 90°, mars 180°`, the opposition is
discoverable from both of its directions, yet exactly one T-square is
reported, with the `90°` body as its focal planet. -/
theorem t_square_single_report :
    compute_aspects C6_bodies none none = .ok C6_aspects
  ∧ oppositions_of (filtered_t_graph (build_aspect_graph C6_aspects)) =
      [("sun", "mars"), ("mars", "sun")]
  ∧ detect_t_squares (build_aspect_graph C6_aspects) C6_bodies =
      [⟨"T-square", "moon", ["sun", "mars"], 4/5⟩] := by
  refine ⟨?_, ?_, ?_⟩ <;> with_unfolding_all decide

/-- C2: `detect_aspect_patterns` always returns the five-list record: the
all-empty record on empty inputs, and otherwise each field is its detector's
result with a raising detector degraded to the empty list, leaving the other
four fields as computed. -/
theorem detect_aspect_patterns_shape :
    (∀ bodies, detect_aspect_patterns [] bodies = emptyPatterns)
  ∧ (∀ aspects, detect_aspect_patterns aspects [] = emptyPatterns)
  ∧ (∀ aspects bodies, aspects ≠ [] → bodies ≠ [] →
      detect_aspect_patterns aspects bodies =
        ⟨detect_t_squares (build_aspect_graph aspects) bodies,
         exceptD (detect_grand_trines (build_aspect_graph aspects) bodies),
         exceptD (detect_grand_crosses (build_aspect_graph aspects) bodies),
         detect_yods (build_aspect_graph aspects) bodies,
         exceptD (detect_stelliums bodies 8)⟩)
  ∧ (∀ aspects bodies e, aspects ≠ [] → bodies ≠ [] →
      detect_stelliums bodies 8 = .error e →
      (detect_aspect_patterns aspects bodies).stelliums = []
      ∧ (detect_aspect_patterns aspects bodies).t_squares =
          detect_t_squares (build_aspect_graph aspects) bodies) := by
  refine ⟨?_, ?_, ?_, ?_⟩
  · intro bodies; rfl
  · intro aspects; simp [detect_aspect_patterns]
  · intro aspects bodies h1 h2
    simp [detect_aspect_patterns, h1, h2]
  · intro aspects bodies e h1 h2 hs
    simp [detect_aspect_patterns, h1, h2, hs, exceptD]

/-- C2 witness: a chart whose stellium detector raises (`sun` has no `sign`)
degrades only the stellium list; the T-square list is still computed. -/
theorem detect_aspect_patterns_shape_witness :
    detect_stelliums C2_bodies 8 = .error "KeyError: sign"
  ∧ (detect_aspect_patterns C2_aspects C2_bodies).stelliums = []
  ∧ (detect_aspect_patterns C2_aspects C2_bodies).t_squares =
      [⟨"T-square", "moon", ["sun", "mars"], 4/5⟩] := by
  have happ := detect_aspect_patterns_shape.2.2.2 C2_aspects C2_bodies
    "KeyError: sign" (by simp [C2_aspects]) (by simp [C2_bodies])
    (by with_unfolding_all decide)
  exact ⟨by with_unfolding_all decide, happ.1,
    happ.2.trans (by with_unfolding_all decide)⟩

/-- C4 counterexample: with a zero conjunction orb and a wide semi-sextile
orb, the coincident pair `c`/`d` matches conjunction first, strength scoring
raises, and the pair is NOT skipped entirely: a semi-sextile record is still
emitted for it. -/
theorem pair_skip_claim_refuted :
    calculate_aspect_strength |(0:ℚ) - 0| (lookupD C4_orbs "conjunction" 5)
        "conjunction" = .error "Max orb must be positive"
  ∧ |(0:ℚ) - 0| ≤ lookupD C4_orbs "conjunction" 5
  ∧ compute_aspects C4_bodies (some C4_orbs) none =
      .ok [⟨["c", "d"], "semi-sextile", 0, 30, 1/20⟩] := by
  refine ⟨?_, ?_, ?_⟩ <;> with_unfolding_all decide

/-- C4 amended: a non-numeric longitude on either side skips the pair (no
record of any kind), while a scoring exception skips only the matched KIND:
the kind scan proceeds with the remaining kinds of the same pair. -/
theorem per_pair_failure_scope :
    (∀ orbs n1 n2 v, classify_pair orbs n1 n2 .nonNum v = none)
  ∧ (∀ orbs n1 n2 v, classify_pair orbs n1 n2 v .nonNum = none)
  ∧ (∀ orbs n1 n2 diff asp ang rest e,
      |diff - ang| ≤ lookupD orbs asp 5 →
      calculate_aspect_strength |diff - ang| (lookupD orbs asp 5) asp = .error e →
      aspect_kind_scan orbs n1 n2 diff ((asp, ang) :: rest) =
        aspect_kind_scan orbs n1 n2 diff rest) := by
  refine ⟨?_, ?_, ?_⟩
  · intro orbs n1 n2 v; cases v <;> rfl
  · intro orbs n1 n2 v; cases v <;> rfl
  · intro orbs n1 n2 diff asp ang rest e hsat herr
    rw [aspect_kind_scan, if_pos hsat, herr]

/-- C4 witness: the scoring exception of the zero-orb conjunction at
separation `0` makes the kind scan fall through to the remaining kinds. -/
theorem per_pair_failure_scope_witness :
    (|(0:ℚ) - 0| ≤ lookupD C4_orbs "conjunction" 5)
  ∧ aspect_kind_scan C4_orbs "c" "d" 0
      [("conjunction", (0:ℚ)), ("semi-sextile", 30)] =
      aspect_kind_scan C4_orbs "c" "d" 0 [("semi-sextile", 30)] :=
  ⟨by with_unfolding_all decide,
   per_pair_failure_scope.2.2 C4_orbs "c" "d" 0 "conjunction" 0
     [("semi-sextile", 30)] "Max orb must be positive"
     (by with_unfolding_all decide) (by with_unfolding_all decide)⟩

/-- C10 counterexample: two validated candidate bodies `15°` apart produce
the non-error empty aspect list even though two candidate names remain. -/
theorem empty_aspects_with_two_candidates :
    compute_aspects C10_bodies none none = .ok []
  ∧ (candidate_names C10_bodies none).length = 2 := by
  refine ⟨?_, ?_⟩ <;> with_unfolding_all decide

/-- C10 amended: a non-dict or empty `bodies` raises; after validation of a
non-empty mapping, fewer than two candidate names yields the (non-error)
empty list — but, per the counterexample, that is not the only source of an
empty result. -/
theorem compute_aspects_empty_and_error_conditions :
    (∀ orbs pts, compute_aspects_arg none orbs pts =
      .error "Bodies must be a non-empty dictionary")
  ∧ (∀ orbs pts, compute_aspects [] orbs pts =
      .error "Bodies must be a non-empty dictionary")
  ∧ (∀ (bodies : Bodies) orbs pts, bodies ≠ [] →
      (∀ n ∈ bodies.map Prod.fst, (lonOf bodies n).isSome) →
      (candidate_names bodies pts).length < 2 →
      compute_aspects bodies orbs pts = .ok []) := by
  refine ⟨fun _ _ => rfl, fun _ _ => rfl, ?_⟩
  intro bodies orbs pts hne hlon hlen
  unfold compute_aspects
  rw [if_neg (by simp [List.isEmpty_iff, hne]), if_neg ?_, if_pos hlen]
  intro hany
  obtain ⟨n, hn, hf⟩ := List.any_eq_true.mp hany
  have := hlon n hn
  simp [Option.isNone_iff_eq_none] at hf
  simp [hf] at this

/-- C10 witness: a single validated body gives one candidate name and the
non-error empty list. -/
theorem compute_aspects_empty_and_error_conditions_witness :
    compute_aspects [("sun", Body.mk (some (.num 0)) none)] none none = .ok [] :=
  compute_aspects_empty_and_error_conditions.2.2
    [("sun", Body.mk (some (.num 0)) none)] none none
    (by simp) (by with_unfolding_all decide) (by with_unfolding_all decide)

/-- Both components of an ordered pair come from the underlying list. -/
theorem ordered_pairs_mem {α : Type} :
    ∀ {l : List α} {p : α × α}, p ∈ ordered_pairs l → p.1 ∈ l ∧ p.2 ∈ l := by
  intro l
  induction l with
  | nil => intro p h; simp [ordered_pairs] at h
  | cons x xs ih =>
    intro p h
    simp only [ordered_pairs, List.mem_append, List.mem_map] at h
    rcases h with ⟨y, hy, rfl⟩ | h
    · exact ⟨List.mem_cons_self _ _, List.mem_cons_of_mem _ hy⟩
    · exact ⟨List.mem_cons_of_mem _ (ih h).1, List.mem_cons_of_mem _ (ih h).2⟩

/-- Over a duplicate-free list, distinct ordered pairs denote distinct
unordered pairs. -/
theorem ordered_pairs_pairwise {α : Type} :
    ∀ {l : List α}, l.Nodup →
      (ordered_pairs l).Pairwise fun p q => ¬(p = q ∨ (p.1 = q.2 ∧ p.2 = q.1)) := by
  intro l h
  induction l with
  | nil => simp [ordered_pairs]
  | cons x xs ih =>
    rw [List.nodup_cons] at h
    obtain ⟨hx, hnd⟩ := h
    simp only [ordered_pairs]
    rw [List.pairwise_append]
    refine ⟨?_, ih hnd, ?_⟩
    · rw [List.pairwise_map]
      refine List.Pairwise.imp_of_mem ?_ hnd
      intro y1 y2 h1 h2 hne hcon
      rcases hcon with heq | ⟨hxy2, _⟩
      · exact hne (by simpa using heq)
      · have hx2 : x = y2 := hxy2
        exact hx (hx2 ▸ h2)
    · intro a ha b hb hcon
      simp only [List.mem_map] at ha
      obtain ⟨y, _, rfl⟩ := ha
      have hb12 := ordered_pairs_mem hb
      rcases hcon with heq | ⟨h1, _⟩
      · rw [← heq] at hb12; exact hx hb12.1
      · have hx2 : x = b.2 := h1
        exact hx (hx2 ▸ hb12.2)

/-- Every record the kind scan emits carries the scanned pair and its
separation. -/
theorem aspect_kind_scan_shape (orbs : List (String × ℚ)) (n1 n2 : String)
    (diff : ℚ) : ∀ (kinds : List (String × ℚ)) (r : Aspect),
    aspect_kind_scan orbs n1 n2 diff kinds = some r →
    r.between = [n1, n2] ∧ r.angle = diff := by
  intro kinds
  induction kinds with
  | nil => intro r h; simp [aspect_kind_scan] at h
  | cons ka rest ih =>
    rcases ka with ⟨asp, ang⟩
    intro r h
    rw [aspect_kind_scan] at h
    split at h
    · split at h
      · cases h; exact ⟨rfl, rfl⟩
      · exact ih r h
    · exact ih r h

/-- Every record `classify_pair` emits carries the classified pair, and is a
kind-scan result keyed by its own recorded angle. -/
theorem classify_pair_shape (orbs : List (String × ℚ)) (n1 n2 : String)
    (v1 v2 : LonVal) (r : Aspect) (h : classify_pair orbs n1 n2 v1 v2 = some r) :
    r.between = [n1, n2] ∧ aspect_kind_scan orbs n1 n2 r.angle ASPECTS = some r := by
  cases v1 with
  | nonNum => simp [classify_pair] at h
  | num q1 =>
    cases v2 with
    | nonNum => simp [classify_pair] at h
    | num q2 =>
      simp only [classify_pair] at h
      obtain ⟨hb, ha⟩ := aspect_kind_scan_shape orbs n1 n2 _ ASPECTS r h
      exact ⟨hb, ha ▸ h⟩

/-- With positive orbs for every scanned kind, the kind scan returns exactly
the first kind whose tolerance is satisfied. -/
theorem aspect_kind_scan_find (orbs : List (String × ℚ)) (n1 n2 : String)
    (diff : ℚ) : ∀ kinds : List (String × ℚ),
    (∀ ka ∈ kinds, 0 < lookupD orbs ka.1 5) →
    ∀ r, aspect_kind_scan orbs n1 n2 diff kinds = some r →
    ∃ ang, kinds.find? (fun ka => decide (|diff - ka.2| ≤ lookupD orbs ka.1 5)) =
      some (r.aspect, ang) := by
  intro kinds
  induction kinds with
  | nil => intro _ r h; simp [aspect_kind_scan] at h
  | cons ka rest ih =>
    rcases ka with ⟨asp, ang⟩
    intro hpos r h
    rw [aspect_kind_scan] at h
    by_cases hsat : |diff - ang| ≤ lookupD orbs asp 5
    · rw [if_pos hsat] at h
      have horb : 0 < lookupD orbs asp 5 := hpos _ (List.mem_cons_self _ _)
      rw [calculate_aspect_strength, if_neg (not_le.mpr horb)] at h
      simp only [] at h
      cases h
      refine ⟨ang, ?_⟩
      rw [List.find?_cons_of_pos _ (by simpa using hsat)]
    · rw [if_neg hsat] at h
      obtain ⟨a0, ha0⟩ := ih (fun ka hka => hpos ka (List.mem_cons_of_mem _ hka)) r h
      refine ⟨a0, ?_⟩
      rw [List.find?_cons_of_neg _ (by simpa using hsat)]
      exact ha0

/-- Over any orbs table, the kind scan returns exactly the first kind whose
orb tolerance is satisfied and whose strength scoring succeeds. -/
theorem aspect_kind_scan_find_scoreable (orbs : List (String × ℚ))
    (n1 n2 : String) (diff : ℚ) : ∀ kinds : List (String × ℚ),
    ∀ r, aspect_kind_scan orbs n1 n2 diff kinds = some r →
    ∃ ang, kinds.find? (fun ka =>
        decide (|diff - ka.2| ≤ lookupD orbs ka.1 5) &&
        exceptOk (calculate_aspect_strength |diff - ka.2|
          (lookupD orbs ka.1 5) ka.1)) = some (r.aspect, ang) := by
  intro kinds
  induction kinds with
  | nil => intro r h; simp [aspect_kind_scan] at h
  | cons ka rest ih =>
    rcases ka with ⟨asp, ang⟩
    intro r h
    rw [aspect_kind_scan] at h
    by_cases hsat : |diff - ang| ≤ lookupD orbs asp 5
    · rw [if_pos hsat] at h
      cases hstr : calculate_aspect_strength |diff - ang|
          (lookupD orbs asp 5) asp with
      | ok s =>
        rw [hstr] at h
        cases h
        refine ⟨ang, ?_⟩
        rw [List.find?_cons_of_pos _ (by simp [hsat, hstr, exceptOk])]
      | error e =>
        rw [hstr] at h
        have h2 : aspect_kind_scan orbs n1 n2 diff rest = some r := h
        obtain ⟨a0, ha0⟩ := ih r h2
        refine ⟨a0, ?_⟩
        rw [List.find?_cons_of_neg _ (by simp [hstr, exceptOk])]
        exact ha0
    · rw [if_neg hsat] at h
      obtain ⟨a0, ha0⟩ := ih r h
      refine ⟨a0, ?_⟩
      rw [List.find?_cons_of_neg _ (by simp [hsat])]
      exact ha0

/-- The `include_points` filter preserves duplicate-freedom of the
candidate names. -/
theorem candidate_names_nodup (bodies : Bodies) (pts : Option (List String))
    (h : (bodies.map Prod.fst).Nodup) : (candidate_names bodies pts).Nodup := by
  unfold candidate_names
  cases pts with
  | none => exact h
  | some ips =>
    by_cases he : ips.isEmpty <;> simp [he]
    · exact h
    · exact h.filter _

/-- Structure of a successful `compute_aspects` run: either the short-circuit
empty list, or the filter-mapped classification of all candidate pairs. -/
theorem compute_aspects_ok_cases (bodies : Bodies)
    (orbs : Option (List (String × ℚ))) (pts : Option (List String))
    (l : List Aspect) (h : compute_aspects bodies orbs pts = .ok l) :
    l = [] ∨
    l = (ordered_pairs (candidate_names bodies pts)).filterMap fun p =>
      match lonOf bodies p.1, lonOf bodies p.2 with
      | some v1, some v2 => classify_pair (orbs.getD ASPECT_ORBS) p.1 p.2 v1 v2
      | _, _ => none := by
  simp only [compute_aspects] at h
  split at h
  · exact absurd h (by simp)
  · split at h
    · exact absurd h (by simp)
    · split at h
      · cases h; exact Or.inl rfl
      · cases h; exact Or.inr rfl

/-- C3 counterexample: with a zero conjunction orb and a wide semi-sextile
orb, the coincident pair is recorded with kind semi-sextile although the
first kind in enumeration order whose tolerance is satisfied is the
conjunction. -/
theorem first_kind_claim_refuted :
    compute_aspects C3_bodies (some C3_orbs) none =
      .ok [⟨["a", "b"], "semi-sextile", 0, 30, 1/20⟩]
  ∧ spec_first_matching_kind C3_orbs 0 = some ("conjunction", 0)
  ∧ "semi-sextile" ≠ "conjunction" := by
  refine ⟨?_, ?_, ?_⟩ <;> with_unfolding_all decide

/-- C3 amended: `compute_aspects` never returns two records for one
unordered pair of a duplicate-free bodies mapping; over EVERY orbs table the
recorded kind is exactly the first kind, in the fixed enumeration order,
whose orb tolerance its separation satisfies and whose strength scoring does
not raise; and whenever every kind's effective orb is positive (so scoring
cannot raise) that is the first kind whose orb tolerance is satisfied. -/
theorem compute_aspects_pair_unique_first_kind :
    (∀ (bodies : Bodies) orbs pts l, (bodies.map Prod.fst).Nodup →
      compute_aspects bodies orbs pts = .ok l →
      l.Pairwise fun r1 r2 =>
        ¬(r1.between = r2.between ∨ r1.between = r2.between.reverse))
  ∧ (∀ (bodies : Bodies) orbs pts l,
      compute_aspects bodies orbs pts = .ok l →
      ∀ r ∈ l, ∃ ang,
        spec_first_scoreable_kind (orbs.getD ASPECT_ORBS) r.angle =
          some (r.aspect, ang))
  ∧ (∀ (bodies : Bodies) orbs pts l,
      (∀ ka ∈ ASPECTS, 0 < lookupD (orbs.getD ASPECT_ORBS) ka.1 5) →
      compute_aspects bodies orbs pts = .ok l →
      ∀ r ∈ l, ∃ ang,
        spec_first_matching_kind (orbs.getD ASPECT_ORBS) r.angle =
          some (r.aspect, ang)) := by
  refine ⟨?_, ?_, ?_⟩
  · intro bodies orbs pts l hnd hok
    rcases compute_aspects_ok_cases bodies orbs pts l hok with rfl | rfl
    · exact List.Pairwise.nil
    · refine List.Pairwise.filterMap _ ?_
        (ordered_pairs_pairwise (candidate_names_nodup bodies pts hnd))
      intro p q hpq r hr r2 hr2
      simp only [Option.mem_def] at hr hr2
      have hbr : r.between = [p.1, p.2] := by
        revert hr
        cases h1 : lonOf bodies p.1 <;> cases h2 : lonOf bodies p.2 <;>
          intro hr <;> simp at hr
        exact (classify_pair_shape _ _ _ _ _ _ hr).1
      have hbr2 : r2.between = [q.1, q.2] := by
        revert hr2
        cases h1 : lonOf bodies q.1 <;> cases h2 : lonOf bodies q.2 <;>
          intro hr2 <;> simp at hr2
        exact (classify_pair_shape _ _ _ _ _ _ hr2).1
      rw [hbr, hbr2]
      intro hcon
      refine hpq ?_
      rcases hcon with heq | heq <;> simp at heq
      · exact Or.inl (Prod.ext heq.1 heq.2)
      · exact Or.inr ⟨heq.1, heq.2⟩
  · intro bodies orbs pts l hok r hr
    rcases compute_aspects_ok_cases bodies orbs pts l hok with rfl | rfl
    · simp at hr
    · obtain ⟨p, _, hp⟩ := List.mem_filterMap.mp hr
      have hscan : aspect_kind_scan (orbs.getD ASPECT_ORBS) p.1 p.2 r.angle
          ASPECTS = some r := by
        revert hp
        cases h1 : lonOf bodies p.1 <;> cases h2 : lonOf bodies p.2 <;>
          intro hp <;> simp at hp
        exact (classify_pair_shape _ _ _ _ _ _ hp).2
      exact aspect_kind_scan_find_scoreable _ _ _ _ ASPECTS r hscan
  · intro bodies orbs pts l hpos hok r hr
    rcases compute_aspects_ok_cases bodies orbs pts l hok with rfl | rfl
    · simp at hr
    · obtain ⟨p, _, hp⟩ := List.mem_filterMap.mp hr
      have hscan : aspect_kind_scan (orbs.getD ASPECT_ORBS) p.1 p.2 r.angle
          ASPECTS = some r := by
        revert hp
        cases h1 : lonOf bodies p.1 <;> cases h2 : lonOf bodies p.2 <;>
          intro hp <;> simp at hp
        exact (classify_pair_shape _ _ _ _ _ _ hp).2
      exact aspect_kind_scan_find _ _ _ _ ASPECTS hpos r hscan

/-- C3 witness: on the chart `sun 0°, moon 90°` with default orbs, the single
record is pairwise-unique and its kind square is the first kind whose
tolerance the `90°` separation satisfies; and on the raising-orbs chart of
the counterexample, the first satisfied-and-scoreable kind is exactly the
recorded semi-sextile. -/
theorem compute_aspects_pair_unique_first_kind_witness :
    List.Pairwise (fun r1 r2 : Aspect =>
      ¬(r1.between = r2.between ∨ r1.between = r2.between.reverse))
      [⟨["sun", "moon"], "square", 90, 0, 4/5⟩]
  ∧ (∃ ang, spec_first_scoreable_kind C3_orbs 0 = some ("semi-sextile", ang))
  ∧ (∃ ang, spec_first_matching_kind (Option.getD none ASPECT_ORBS) 90 =
      some ("square", ang)) :=
  ⟨compute_aspects_pair_unique_first_kind.1
    [("sun", Body.mk (some (.num 0)) none), ("moon", Body.mk (some (.num 90)) none)]
    none none _ (by with_unfolding_all decide) (by with_unfolding_all decide),
   compute_aspects_pair_unique_first_kind.2.1
    C3_bodies (some C3_orbs) none _ (by with_unfolding_all decide)
    ⟨["a", "b"], "semi-sextile", 0, 30, 1/20⟩ (List.mem_singleton.mpr rfl),
   compute_aspects_pair_unique_first_kind.2.2
    [("sun", Body.mk (some (.num 0)) none), ("moon", Body.mk (some (.num 90)) none)]
    none none _ (by with_unfolding_all decide) (by with_unfolding_all decide)
    ⟨["sun", "moon"], "square", 90, 0, 4/5⟩ (List.mem_singleton.mpr rfl)⟩

/-- The `elif` tally of `is_grand_cross` counts plain square and opposition
occurrences whenever no pair carries both edges. -/
theorem grand_cross_counts_spec (g : Graph) :
    ∀ (l : List (String × String)) (a b : ℕ),
      (∀ pq ∈ l, ¬(has_aspect_between g pq.1 pq.2 "square" = true ∧
                   has_aspect_between g pq.1 pq.2 "opposition" = true)) →
      l.foldl
        (fun acc pq =>
          if has_aspect_between g pq.1 pq.2 "square" then (acc.1 + 1, acc.2)
          else if has_aspect_between g pq.1 pq.2 "opposition" then (acc.1, acc.2 + 1)
          else acc)
        (a, b) =
      (a + l.countP fun pq => has_aspect_between g pq.1 pq.2 "square",
       b + l.countP fun pq => has_aspect_between g pq.1 pq.2 "opposition") := by
  intro l
  induction l with
  | nil => intro a b _; simp
  | cons pq rest ih =>
    intro a b h
    have hrest : ∀ x ∈ rest, ¬(has_aspect_between g x.1 x.2 "square" = true ∧
        has_aspect_between g x.1 x.2 "opposition" = true) :=
      fun x hx => h x (List.mem_cons_of_mem _ hx)
    simp only [List.foldl_cons, List.countP_cons]
    by_cases hsq : has_aspect_between g pq.1 pq.2 "square" = true
    · have hop : ¬has_aspect_between g pq.1 pq.2 "opposition" = true :=
        fun hop => h pq (List.mem_cons_self _ _) ⟨hsq, hop⟩
      rw [if_pos hsq, ih (a + 1) b hrest]
      simp [hsq, hop]
      omega
    · rw [if_neg hsq]
      by_cases hop : has_aspect_between g pq.1 pq.2 "opposition" = true
      · rw [if_pos hop, ih a (b + 1) hrest]
        simp [hsq, hop]
        omega
      · rw [if_neg hop, ih a b hrest]
        simp [hsq, hop]

/-- C5: a quadruple is a Grand Cross exactly when 4 of its 6 pairwise
relations are square and 2 are opposition (given that no pair is both, as
holds for graphs built from `compute_aspects` output); and the pipeline on
`sun 0°, moon 90°, mars 180°, venus 270°` yields the expected 4 squares and
2 oppositions, and exactly one Grand Cross over all four bodies. -/
theorem grand_cross_exact_counts :
    (∀ (g : Graph) (ps : List String), ps.length = 4 →
      (∀ pq ∈ ordered_pairs ps,
        ¬(has_aspect_between g pq.1 pq.2 "square" = true ∧
          has_aspect_between g pq.1 pq.2 "opposition" = true)) →
      (is_grand_cross g ps = true ↔
        ((ordered_pairs ps).countP
            (fun pq => has_aspect_between g pq.1 pq.2 "square") = 4 ∧
         (ordered_pairs ps).countP
            (fun pq => has_aspect_between g pq.1 pq.2 "opposition") = 2)))
  ∧ compute_aspects C5_bodies none none = .ok C5_aspects
  ∧ detect_grand_crosses (build_aspect_graph C5_aspects) C5_bodies =
      .ok [⟨"Grand Cross", ["sun", "moon", "mars", "venus"], "cardinal", 1⟩] := by
  refine ⟨?_, by with_unfolding_all decide, by with_unfolding_all decide⟩
  intro g ps hlen hno
  unfold is_grand_cross grand_cross_counts
  rw [if_neg (by simp [hlen]), grand_cross_counts_spec g (ordered_pairs ps) 0 0 hno]
  simp

/-- C5 witness: the characterization applied to the concrete Grand-Cross
chart. -/
theorem grand_cross_exact_counts_witness :
    is_grand_cross (build_aspect_graph C5_aspects)
        ["sun", "moon", "mars", "venus"] = true ↔
      ((ordered_pairs ["sun", "moon", "mars", "venus"]).countP
          (fun pq => has_aspect_between (build_aspect_graph C5_aspects)
            pq.1 pq.2 "square") = 4 ∧
       (ordered_pairs ["sun", "moon", "mars", "venus"]).countP
          (fun pq => has_aspect_between (build_aspect_graph C5_aspects)
            pq.1 pq.2 "opposition") = 2) :=
  grand_cross_exact_counts.1 (build_aspect_graph C5_aspects)
    ["sun", "moon", "mars", "venus"] (by decide) (by with_unfolding_all decide)

/-- Every Grand Trine the triple loop emits takes its element tag from the
longitude of the first listed member of the triple. -/
theorem grand_trine_loop_element (g : Graph) (bodies : Bodies) :
    ∀ (ts : List (String × String × String)) (l : List GrandTrine),
      grand_trine_loop g bodies ts = .ok l →
      ∀ r ∈ l, ∃ p rest q, r.planets = p :: rest ∧
        lonOf bodies p = some (.num q) ∧ r.element = get_trine_element q := by
  intro ts
  induction ts with
  | nil =>
    intro l h r hr
    simp [grand_trine_loop] at h
    subst h
    simp at hr
  | cons t rest ih =>
    rcases t with ⟨p1, p2, p3⟩
    intro l h r hr
    rw [grand_trine_loop] at h
    split at h
    · split at h
      · next q heq =>
        cases hrec : grand_trine_loop g bodies rest with
        | error e => rw [hrec] at h; simp [Bind.bind, Except.bind] at h
        | ok tl =>
          rw [hrec] at h
          simp only [Bind.bind, Except.bind, Except.ok.injEq] at h
          subst h
          rcases List.mem_cons.mp hr with rfl | hmem
          · exact ⟨p1, [p2, p3], q, rfl, heq, rfl⟩
          · exact ih tl hrec r hmem
      · simp at h
      · simp at h
    · exact ih l h r hr

/-- C7 counterexample: a Grand Trine whose bodies iterate as `zeta, alpha,
beta` is tagged `Fire` from `zeta`'s `0°`, although the lexicographically
first member is `alpha`, whose `120°` maps to `Earth`. -/
theorem trine_element_lexicographic_refuted :
    compute_aspects C7_bodies none none = .ok C7_aspects
  ∧ detect_grand_trines (build_aspect_graph C7_aspects) C7_bodies =
      .ok [⟨"Grand Trine", ["zeta", "alpha", "beta"], "Fire", 3/5⟩]
  ∧ strLt "alpha" "beta" = true
  ∧ strLt "alpha" "zeta" = true
  ∧ get_trine_element 120 = "Earth"
  ∧ "Fire" ≠ "Earth" := by
  refine ⟨?_, ?_, ?_, ?_, ?_, ?_⟩ <;> with_unfolding_all decide

/-- C7 amended: every emitted Grand Trine's element tag is computed from the
longitude of the FIRST member of the triple in the bodies mapping's
iteration order (the record's first listed planet), mapped by
`get_trine_element`. -/
theorem trine_element_iteration_first (g : Graph) (bodies : Bodies)
    (l : List GrandTrine) (h : detect_grand_trines g bodies = .ok l) :
    ∀ r ∈ l, ∃ p rest q, r.planets = p :: rest ∧
      lonOf bodies p = some (.num q) ∧ r.element = get_trine_element q :=
  grand_trine_loop_element g bodies _ l h

/-- C7 witness: the amended statement evaluated on the concrete Grand-Trine
chart. -/
theorem trine_element_iteration_first_witness :
    ∃ p rest q,
      (GrandTrine.mk "Grand Trine" ["zeta", "alpha", "beta"] "Fire" (3/5)).planets
        = p :: rest ∧
      lonOf C7_bodies p = some (.num q) ∧
      (GrandTrine.mk "Grand Trine" ["zeta", "alpha", "beta"] "Fire" (3/5)).element
        = get_trine_element q :=
  trine_element_iteration_first (build_aspect_graph C7_aspects) C7_bodies _
    (by with_unfolding_all decide) _ (List.mem_singleton.mpr rfl)

/-- Every stellium the sweep emits has at least three members. -/
theorem stellium_loop_min_size (bodies : Bodies) (orb : ℚ) :
    ∀ (ps : List (String × ℚ)) (processed : List String) (l : List Stellium),
      stellium_loop bodies orb ps processed = .ok l →
      ∀ s ∈ l, 3 ≤ s.planets.length := by
  intro ps
  induction ps with
  | nil =>
    intro processed l h s hs
    simp [stellium_loop] at h
    subst h
    simp at hs
  | cons p rest ih =>
    intro processed l h s hs
    simp only [stellium_loop] at h
    split at h
    · exact ih _ _ h s hs
    · by_cases hsize : (p :: absorb p.2 orb processed rest).length ≥ 3
      · rw [if_pos hsize] at h
        split at h
        · next sg hsg =>
          cases hrec : stellium_loop bodies orb rest
              (processed ++ (p :: absorb p.2 orb processed rest).map Prod.fst) with
          | error e => rw [hrec] at h; simp [Bind.bind, Except.bind] at h
          | ok tl =>
            rw [hrec] at h
            simp only [Bind.bind, Except.bind, Except.ok.injEq] at h
            subst h
            rcases List.mem_cons.mp hs with rfl | hmem
            · simpa using hsize
            · exact ih _ tl hrec s hmem
        · simp at h
      · rw [if_neg hsize] at h
        exact ih _ _ h s hs

/-- C8: the five bodies at `10°, 12°, 14°, 16°, 18°` form exactly one
stellium containing all five (orb range `8°`, sign of the first sorted
member), and in general every reported cluster has at least three
members. -/
theorem stellium_five_member_cluster :
    detect_stelliums C8_bodies 8 =
      .ok [⟨"Stellium", ["sun", "moon", "mercury", "venus", "mars"], "Aries", 8⟩]
  ∧ (∀ (bodies : Bodies) (orb : ℚ) (l : List Stellium),
      detect_stelliums bodies orb = .ok l → ∀ s ∈ l, 3 ≤ s.planets.length) := by
  refine ⟨by with_unfolding_all decide, ?_⟩
  intro bodies orb l h s hs
  simp only [detect_stelliums] at h
  cases hm : (bodies.map Prod.fst).mapM fun n =>
      match lonOf bodies n with
      | some v => Except.ok (n, v)
      | none => Except.error "KeyError: ecliptic_longitude_deg" with
  | error e => rw [hm] at h; simp [Bind.bind, Except.bind] at h
  | ok positions =>
    rw [hm] at h
    simp only [Bind.bind, Except.bind] at h
    split at h
    · simp at h
    · exact stellium_loop_min_size bodies orb _ [] l h s hs

/-- C8 witness: the general minimum-size bound applied to the concrete
five-member stellium. -/
theorem stellium_five_member_cluster_witness :
    3 ≤ (Stellium.mk "Stellium" ["sun", "moon", "mercury", "venus", "mars"]
      "Aries" 8).planets.length :=
  stellium_five_member_cluster.2 C8_bodies 8 _ (by with_unfolding_all decide) _
    (List.mem_singleton.mpr rfl)

end Natal
